import Mathlib

/- Shallow embedding of src/convert_images.py (a batch image converter built on
   the Wand/ImageMagick library).  Paths are modelled as a parent-directory
   string plus a final-component name.  The external image library is modelled
   as an oracle of fallible operations (open, transform/resize, set quality,
   set format, save); a Python exception is an Except.error carrying its
   message.  Printed output is collected into lists of strings; the quote
   characters and the per-file check/cross marks of the script are rendered in
   plain ASCII ("ok"/"fail").  The glob pattern star-dot-ext used by the script
   matches exactly the directory entries whose name ends in dot-ext, compared
   case sensitively, as pathlib.Path.glob does on POSIX; the model assumes the
   extension holds no wildcard characters.  String case folding is modelled on
   the ASCII letters. -/

namespace ConvertImages

/-- Python str.lower restricted to ASCII letters. -/
def pyLower (s : String) : String := String.mk (s.data.map Char.toLower)

/-- Python str.upper restricted to ASCII letters. -/
def pyUpper (s : String) : String := String.mk (s.data.map Char.toUpper)

/-- Python str.lstrip applied with the single character dot. -/
def lstripDot (s : String) : String := String.mk (s.data.dropWhile (fun c => c == '.'))

/-- Format normalisation done at convert_images.py lines 100-101:
lowercase, then strip leading dots. -/
def normFmt (s : String) : String := lstripDot (pyLower s)

/-- Python truthiness of an optional integer: None and 0 are falsy. -/
def truthy : Option Int → Bool
  | none => false
  | some n => !(n == 0)

/-- The f-string fragment at line 62: a falsy value renders as the empty
string, a truthy integer as its decimal digits. -/
def orEmpty : Option Int → String
  | none => ""
  | some n => if n == 0 then "" else toString n

/-- The f-string fragment at line 114: a falsy value renders as auto. -/
def orAuto : Option Int → String
  | none => "auto"
  | some n => if n == 0 then "auto" else toString n

/-- A pathlib.Path restricted to the shapes the script builds: a parent
directory plus the final component (the name). -/
structure PyPath where
  parent : String
  name : String
deriving DecidableEq

/-- Python str() of a path, parent and name joined by the separator. -/
def pathStr (p : PyPath) : String := p.parent ++ "/" ++ p.name

/-- Index of the last dot of a character list, when one exists. -/
def lastDotIdx : List Char → Option Nat
  | [] => none
  | c :: cs =>
    match lastDotIdx cs with
    | some i => some (i + 1)
    | none => if c == '.' then some 0 else none

/-- Length of the pathlib suffix of a name: CPython takes the part from the
last dot provided that dot is neither the first nor the last character. -/
def suffixLen (cs : List Char) : Nat :=
  match lastDotIdx cs with
  | some i => if 0 < i && i + 1 < cs.length then cs.length - i else 0
  | none => 0

/-- The name produced by pathlib with_suffix: drop the current suffix (if
any) and append the new one. -/
def withSuffixName (name sfx : String) : String :=
  String.mk (name.data.take (name.data.length - suffixLen name.data)) ++ sfx

/-- pathlib Path.with_suffix, on the path shapes of the model. -/
def with_suffix (p : PyPath) (sfx : String) : PyPath :=
  PyPath.mk p.parent (withSuffixName p.name sfx)

/-- Whether a string begins with a dot. -/
def startsDot (s : String) : Bool :=
  match s.data with
  | [] => false
  | c :: _ => c == '.'

/-- The CPython validity checks of a with_suffix argument: it must not hold a
path separator, and it must be empty or start with a dot and be longer than
the bare dot. -/
def suffixOk (sfx : String) : Bool :=
  !(sfx.data.contains '/') && !((!(sfx == "") && !(startsDot sfx)) || sfx == ".")

/-- pathlib Path.with_suffix as CPython implements it: a ValueError (modelled
as Except.error) for an invalid suffix argument or an empty name, otherwise
the rewritten path. -/
def with_suffix_exc (p : PyPath) (sfx : String) : Except String PyPath :=
  if suffixOk sfx then
    if p.name == "" then Except.error "path has an empty name"
    else Except.ok (with_suffix p sfx)
  else Except.error ("Invalid suffix " ++ sfx)

/-- Oracle for the Wand image library: every operation the script invokes,
each allowed to raise (Except.error) with a message.  saveImg yields the
bytes written to the given file name on success. -/
structure WandLib (Img : Type) where
  openImg : String → Except String Img
  transformImg : Img → String → Except String Img
  setQualityImg : Img → Int → Except String Img
  setFormatImg : Img → String → Except String Img
  saveImg : Img → String → Except String String

/-- Observable outcome of one convert_image call that returned normally:
the boolean result, the output path that was computed, the messages printed,
the resize geometry strings requested from the library, and the file writes
performed. -/
structure ConvResult where
  success : Bool
  outPath : PyPath
  printed : List String
  resizes : List String
  writes : List (PyPath × String)
deriving DecidableEq

/-- Lines 64-70 of the try block of convert_image, after the optional resize:
optional quality, set format, save.  rs records the resize geometries already
requested, so the caught-exception results carry them too. -/
def convert_image_rest {Img : Type} (lib : WandLib Img) (out : PyPath)
    (output_format : String) (quality : Option Int) (rs : List String) (img1 : Img) : ConvResult :=
  match (match quality with
         | none => Except.ok img1
         | some q => lib.setQualityImg img1 q) with
  | Except.error e => ConvResult.mk false out ["Error: " ++ e] rs []
  | Except.ok img2 =>
    match lib.setFormatImg img2 (pyLower output_format) with
    | Except.error e => ConvResult.mk false out ["Error: " ++ e] rs []
    | Except.ok img3 =>
      match lib.saveImg img3 (pathStr out) with
      | Except.error e => ConvResult.mk false out ["Error: " ++ e] rs []
      | Except.ok content => ConvResult.mk true out [] rs [(out, content)]

/-- The try block of convert_image (lines 58-74), given the already resolved
output path: open, optional resize, then the remaining pipeline; any library
exception is caught, its message printed, and False returned. -/
def convert_image_body {Img : Type} (lib : WandLib Img) (input_path out : PyPath)
    (output_format : String) (width height quality : Option Int) : ConvResult :=
  match lib.openImg (pathStr input_path) with
  | Except.error e => ConvResult.mk false out ["Error: " ++ e] [] []
  | Except.ok img0 =>
    if truthy width || truthy height then
      match lib.transformImg img0 (orEmpty width ++ "x" ++ orEmpty height) with
      | Except.error e =>
          ConvResult.mk false out ["Error: " ++ e] [orEmpty width ++ "x" ++ orEmpty height] []
      | Except.ok img1 =>
          convert_image_rest lib out output_format quality
            [orEmpty width ++ "x" ++ orEmpty height] img1
    else convert_image_rest lib out output_format quality [] img0

/-- convert_image (lines 43-74).  The default output path is computed at
lines 55-56, before the try block, so a ValueError raised by with_suffix
propagates to the caller: the outer Except models exactly that uncaught
exception. -/
def convert_image {Img : Type} (lib : WandLib Img) (input_path : PyPath)
    (output_format : String) (output_path : Option PyPath)
    (width height quality : Option Int) : Except String ConvResult :=
  match output_path with
  | some p => Except.ok (convert_image_body lib input_path p output_format width height quality)
  | none =>
    match with_suffix_exc input_path ("." ++ pyLower output_format) with
    | Except.error e => Except.error e
    | Except.ok out => Except.ok (convert_image_body lib input_path out output_format width height quality)

/-- Model of the file system tree seen by convert_all_images: the existing
directories with the entry names directly inside each, plus the existing
plain file paths. -/
structure DirFS where
  dirs : List (String × List String)
  files : List String
deriving DecidableEq

/-- Path.is_dir on the model. -/
def DirFS.isDir (fs : DirFS) (p : String) : Bool := (fs.dirs.map Prod.fst).contains p

/-- Names of the entries directly inside a directory. -/
def DirFS.listDir (fs : DirFS) (p : String) : List String :=
  match fs.dirs.find? (fun d => d.fst == p) with
  | some d => d.snd
  | none => []

/-- Whether the path is an existing plain file. -/
def DirFS.isFile (fs : DirFS) (p : String) : Bool := fs.files.contains p

/-- Path.exists on the model: a directory or a plain file. -/
def DirFS.pathExists (fs : DirFS) (p : String) : Bool := fs.isDir p || fs.isFile p

/-- Whether the first character list ends with the second. -/
def endsWithL (s t : List Char) : Bool := List.drop (s.length - t.length) s == t

/-- Match of a directory entry name against the glob pattern star-dot-fmt,
as pathlib resolves it on POSIX: a case-sensitive test that the name ends
with dot-fmt (fmt assumed free of wildcard characters). -/
def globMatch (fmtN name : String) : Bool := endsWithL name.data ("." ++ fmtN).data

/-- Outcome of the per-file loop of convert_all_images (lines 122-129): the
files convert_image was invoked on in order, the two counters, the printed
lines, and the exception that escaped the loop when one did. -/
structure LoopRes where
  attempted : List PyPath
  successful : Nat
  failed : Nat
  printed : List String
  uncaught : Option String
deriving DecidableEq

/-- The per-file loop.  A convert_image call that raises ends the loop (an
uncaught exception aborts the Python for statement); a call that returns
False only increments the failed counter. -/
def batchLoop {Img : Type} (lib : WandLib Img) (output_format : String)
    (width height quality : Option Int) : List PyPath → LoopRes
  | [] => LoopRes.mk [] 0 0 [] none
  | file :: rest =>
    match convert_image lib file output_format none width height quality with
    | Except.error e =>
        LoopRes.mk [file] 0 0 ["Converting: " ++ file.name] (some e)
    | Except.ok r =>
        let t := batchLoop lib output_format width height quality rest
        if r.success then
          LoopRes.mk (file :: t.attempted) (t.successful + 1) t.failed
            ((("Converting: " ++ file.name) :: r.printed ++ ["ok"]) ++ t.printed) t.uncaught
        else
          LoopRes.mk (file :: t.attempted) t.successful (t.failed + 1)
            ((("Converting: " ++ file.name) :: r.printed ++ ["fail"]) ++ t.printed) t.uncaught

/-- Observable outcome of a convert_all_images call: the glob result, the
files attempted, the reported counters, the printed lines, whether the final
summary was printed, and the exception that escaped when one did. -/
structure BatchResult where
  found : List PyPath
  attempted : List PyPath
  successful : Nat
  failed : Nat
  printed : List String
  summaryPrinted : Bool
  uncaught : Option String
deriving DecidableEq

/-- Lines 100-105: the glob result, the directory entries whose name matches
the pattern star-dot-normalised-input-format, each joined to the folder
path, in listing order. -/
def globFiles (fs : DirFS) (folder_path input_format : String) : List PyPath :=
  ((fs.listDir folder_path).filter (fun n => globMatch (normFmt input_format) n)).map
    (fun n => PyPath.mk folder_path n)

/-- Lines 111-117: the lines printed before the loop starts. -/
def batchHeader (folder_path input_format output_format : String)
    (width height quality : Option Int) (count : Nat) : List String :=
  ["Found " ++ toString count ++ " " ++ pyUpper (normFmt input_format) ++
     " file(s) in " ++ folder_path,
   "Converting to " ++ pyUpper (normFmt output_format) ++ "..."] ++
  (if truthy width || truthy height then
     ["Resizing to: " ++ orAuto width ++ "x" ++ orAuto height] else []) ++
  (match quality with
   | none => []
   | some q => if q == 0 then [] else ["Quality: " ++ toString q])

/-- Lines 111-133 after a nonempty glob: the header, the loop, and the final
summary, which is reached (and printed) exactly when no exception escaped
the loop. -/
def convert_all_images_assemble (folder_path input_format output_format : String)
    (width height quality : Option Int) (files : List PyPath) (t : LoopRes) : BatchResult :=
  BatchResult.mk files t.attempted t.successful t.failed
    (batchHeader folder_path input_format output_format width height quality files.length ++
      t.printed ++
      (if t.uncaught.isNone then
        ["Conversion complete:",
         "Successful: " ++ toString t.successful,
         "Failed: " ++ toString t.failed] else []))
    t.uncaught.isNone
    t.uncaught

/-- Lines 99-133: the part of convert_all_images after the folder checks. -/
def convert_all_images_checked {Img : Type} (lib : WandLib Img) (fs : DirFS)
    (folder_path input_format output_format : String)
    (width height quality : Option Int) : BatchResult :=
  if (globFiles fs folder_path input_format).isEmpty then
    BatchResult.mk [] [] 0 0
      ["No " ++ pyUpper (normFmt input_format) ++ " files found in " ++ folder_path] false none
  else
    convert_all_images_assemble folder_path input_format output_format width height quality
      (globFiles fs folder_path input_format)
      (batchLoop lib (normFmt output_format) width height quality
        (globFiles fs folder_path input_format))

/-- convert_all_images (lines 77-133): validate the folder, normalise the
two formats, glob, report when nothing matches, otherwise loop over the
matches and print the final summary. -/
def convert_all_images {Img : Type} (lib : WandLib Img) (fs : DirFS)
    (folder_path input_format output_format : String)
    (width height quality : Option Int) : BatchResult :=
  if !(fs.pathExists folder_path) then
    BatchResult.mk [] [] 0 0 ["Error: Folder " ++ folder_path ++ " does not exist."] false none
  else if !(fs.isDir folder_path) then
    BatchResult.mk [] [] 0 0 ["Error: " ++ folder_path ++ " is not a directory."] false none
  else
    convert_all_images_checked lib fs folder_path input_format output_format
      width height quality

/-- Replay a list of file writes over a content map. -/
def runWrites (fs : PyPath → Option String) : List (PyPath × String) → (PyPath → Option String)
  | [] => fs
  | w :: rest => runWrites (fun q => if q = w.1 then some w.2 else fs q) rest

/-- Library oracle on which every operation succeeds; saving yields fixed
converted bytes. -/
def okLib : WandLib Unit :=
  WandLib.mk (fun _ => Except.ok ()) (fun _ _ => Except.ok ())
    (fun _ _ => Except.ok ()) (fun _ _ => Except.ok ())
    (fun _ _ => Except.ok "converted")

/-- Library oracle on which opening any file fails. -/
def badOpenLib : WandLib Unit :=
  WandLib.mk (fun _ => Except.error "unable to open image")
    (fun _ _ => Except.ok ()) (fun _ _ => Except.ok ())
    (fun _ _ => Except.ok ()) (fun _ _ => Except.ok "converted")

/-- Whether the loop-body call of convert_image succeeds on a file (False
also when it raises, though that case never coexists with a completed loop). -/
def convSucc {Img : Type} (lib : WandLib Img) (fmt : String) (w h q : Option Int)
    (f : PyPath) : Bool :=
  match convert_image lib f fmt none w h q with
  | Except.ok r => r.success
  | Except.error _ => false

/-- Decimal rendering of a supplied dimension, empty when the dimension is
absent: the geometry fragment the spec promises the library receives. -/
def dimShow : Option Int → String
  | none => ""
  | some n => toString n

theorem truthy_some_zero : truthy (some 0) = false := rfl

theorem truthy_none_eq : truthy none = false := rfl

theorem orEmpty_some_zero : orEmpty (some 0) = "" := rfl

theorem orEmpty_none_eq : orEmpty none = "" := rfl

/-- Case analysis of the tail of the conversion pipeline: the output path and
the recorded resizes pass through, and the outcome is either a success with
nothing printed and exactly one write at the output path, or a failure with
one printed error message and no write. -/
theorem convert_image_rest_cases {Img : Type} (lib : WandLib Img) (out : PyPath)
    (fmt : String) (q : Option Int) (rs : List String) (img1 : Img) :
    (convert_image_rest lib out fmt q rs img1).outPath = out ∧
    (convert_image_rest lib out fmt q rs img1).resizes = rs ∧
    (((convert_image_rest lib out fmt q rs img1).success = true ∧
      (convert_image_rest lib out fmt q rs img1).printed = [] ∧
      ∃ c, (convert_image_rest lib out fmt q rs img1).writes = [(out, c)]) ∨
     ((convert_image_rest lib out fmt q rs img1).success = false ∧
      (∃ e, (convert_image_rest lib out fmt q rs img1).printed = ["Error: " ++ e]) ∧
      (convert_image_rest lib out fmt q rs img1).writes = [])) := by
  unfold convert_image_rest
  cases hq : (match q with | none => Except.ok img1 | some qq => lib.setQualityImg img1 qq) with
  | error e => simp [hq]
  | ok img2 =>
    cases hf : lib.setFormatImg img2 (pyLower fmt) with
    | error e => simp [hq, hf]
    | ok img3 =>
      cases hs : lib.saveImg img3 (pathStr out) with
      | error e => simp [hq, hf, hs]
      | ok content => simp [hq, hf, hs]

/-- Case analysis of the whole try block: same shape as for the tail. -/
theorem convert_image_body_cases {Img : Type} (lib : WandLib Img) (p out : PyPath)
    (fmt : String) (w h q : Option Int) :
    (convert_image_body lib p out fmt w h q).outPath = out ∧
    (((convert_image_body lib p out fmt w h q).success = true ∧
      (convert_image_body lib p out fmt w h q).printed = [] ∧
      ∃ c, (convert_image_body lib p out fmt w h q).writes = [(out, c)]) ∨
     ((convert_image_body lib p out fmt w h q).success = false ∧
      (∃ e, (convert_image_body lib p out fmt w h q).printed = ["Error: " ++ e]) ∧
      (convert_image_body lib p out fmt w h q).writes = [])) := by
  unfold convert_image_body
  cases hO : lib.openImg (pathStr p) with
  | error e => simp [hO]
  | ok img0 =>
    by_cases hwh : (truthy w || truthy h) = true
    · simp only [hwh, if_true]
      cases hT : lib.transformImg img0 (orEmpty w ++ "x" ++ orEmpty h) with
      | error e => simp [hT]
      | ok img1 =>
        exact ⟨(convert_image_rest_cases lib out fmt q _ img1).1,
               (convert_image_rest_cases lib out fmt q _ img1).2.2⟩
    · simp only [Bool.not_eq_true] at hwh
      simp only [hwh, if_false]
      exact ⟨(convert_image_rest_cases lib out fmt q [] img0).1,
             (convert_image_rest_cases lib out fmt q [] img0).2.2⟩

/-- When the open succeeds, the resizes recorded by the try block are exactly
the geometry of line 62 when a dimension is truthy, and nothing otherwise. -/
theorem convert_image_body_resizes {Img : Type} (lib : WandLib Img) (p out : PyPath)
    (fmt : String) (w h q : Option Int) (img0 : Img)
    (hO : lib.openImg (pathStr p) = Except.ok img0) :
    (convert_image_body lib p out fmt w h q).resizes =
      (if truthy w || truthy h then [orEmpty w ++ "x" ++ orEmpty h] else []) := by
  unfold convert_image_body
  rw [hO]
  by_cases hwh : (truthy w || truthy h) = true
  · simp only [hwh, if_true]
    cases hT : lib.transformImg img0 (orEmpty w ++ "x" ++ orEmpty h) with
    | error e => simp [hT]
    | ok img1 =>
      exact (convert_image_rest_cases lib out fmt q _ img1).2.1
  · simp only [Bool.not_eq_true] at hwh
    simp only [hwh, if_false]
    exact (convert_image_rest_cases lib out fmt q [] img0).2.1

/-- A convert_image call that returned normally is the try block run at some
output path. -/
theorem convert_image_ok_elim {Img : Type} (lib : WandLib Img) (p : PyPath)
    (fmt : String) (outp : Option PyPath) (w h q : Option Int) (r : ConvResult)
    (hok : convert_image lib p fmt outp w h q = Except.ok r) :
    ∃ out, r = convert_image_body lib p out fmt w h q ∧ r.outPath = out := by
  cases outp with
  | some pp =>
    refine ⟨pp, ?_, ?_⟩
    · simpa [convert_image] using hok.symm
    · have hr : r = convert_image_body lib p pp fmt w h q := by
        simpa [convert_image] using hok.symm
      rw [hr]
      exact (convert_image_body_cases lib p pp fmt w h q).1
  | none =>
    unfold convert_image at hok
    cases hS : with_suffix_exc p ("." ++ pyLower fmt) with
    | error e => rw [hS] at hok; exact absurd hok (by simp)
    | ok out =>
      rw [hS] at hok
      refine ⟨out, ?_, ?_⟩
      · simpa using hok.symm
      · have hr : r = convert_image_body lib p out fmt w h q := by simpa using hok.symm
        rw [hr]
        exact (convert_image_body_cases lib p out fmt w h q).1

/-- With a valid suffix and a nonempty name, the default-output computation
of lines 55-56 does not raise, and convert_image returns the try block run at
the rewritten path. -/
theorem convert_image_default_ok {Img : Type} (lib : WandLib Img) (p : PyPath)
    (fmt : String) (w h q : Option Int)
    (hs : suffixOk ("." ++ pyLower fmt) = true) (hn : p.name ≠ "") :
    convert_image lib p fmt none w h q =
      Except.ok (convert_image_body lib p (with_suffix p ("." ++ pyLower fmt)) fmt w h q) := by
  unfold convert_image with_suffix_exc
  rw [hs]
  simp only [if_true]
  have hb : (p.name == "") = false := by
    simpa using hn
  rw [hb]
  simp

/-- A name matched by the glob pattern ends with a dot and so is nonempty. -/
theorem globMatch_ne_empty (fmtN name : String) (hm : globMatch fmtN name = true) :
    name ≠ "" := by
  intro hcontra
  rw [hcontra] at hm
  unfold globMatch endsWithL at hm
  have hdata : ("" : String).data = ([] : List Char) := rfl
  rw [hdata] at hm
  have hcons : ("." ++ fmtN).data = '.' :: fmtN.data := rfl
  rw [hcons] at hm
  simp at hm

/-- An existing directory exists as a path. -/
theorem pathExists_of_isDir (fs : DirFS) (p : String) (hd : fs.isDir p = true) :
    fs.pathExists p = true := by
  unfold DirFS.pathExists
  rw [hd]
  simp

/-- When every call of the loop body returns normally, the loop attempts
every file in order, nothing escapes, and the two counters count exactly the
successes and the failures. -/
theorem batchLoop_spec {Img : Type} (lib : WandLib Img) (fmt : String)
    (w h q : Option Int) (files : List PyPath)
    (hok : ∀ f ∈ files, ∃ b, convert_image lib f fmt none w h q = Except.ok b) :
    (batchLoop lib fmt w h q files).attempted = files ∧
    (batchLoop lib fmt w h q files).uncaught = none ∧
    (batchLoop lib fmt w h q files).successful = files.countP (fun f => convSucc lib fmt w h q f) ∧
    (batchLoop lib fmt w h q files).failed =
      files.countP (fun f => !(convSucc lib fmt w h q f)) := by
  induction files with
  | nil => simp [batchLoop]
  | cons file rest ih =>
    obtain ⟨b, hb⟩ := hok file (by simp)
    have hrest := ih (fun f hf => hok f (by simp [hf]))
    have hcs : convSucc lib fmt w h q file = b.success := by
      unfold convSucc
      rw [hb]
    unfold batchLoop
    rw [hb]
    cases hsucc : b.success with
    | true =>
      simp only [hsucc, if_true]
      refine ⟨by simp [hrest.1], by simp [hrest.2.1], ?_, ?_⟩
      · simp [List.countP_cons, hrest.2.2.1, hcs, hsucc]
      · simp [List.countP_cons, hrest.2.2.2, hcs, hsucc]
    | false =>
      simp only [hsucc, if_false]
      refine ⟨by simp [hrest.1], by simp [hrest.2.1], ?_, ?_⟩
      · simp [List.countP_cons, hrest.2.2.1, hcs, hsucc]
      · simp [List.countP_cons, hrest.2.2.2, hcs, hsucc]

theorem runWrites_nil (fs : PyPath → Option String) (x : PyPath) :
    runWrites fs [] x = fs x := rfl

theorem runWrites_single (fs : PyPath → Option String) (o : PyPath) (c : String) (x : PyPath) :
    runWrites fs [(o, c)] x = if x = o then some c else fs x := rfl

/-- Replacing a zero width by an absent width leaves the try block unchanged:
both the truthiness test and the geometry rendering coincide. -/
theorem convert_image_body_zero_width {Img : Type} (lib : WandLib Img) (p out : PyPath)
    (fmt : String) (h q : Option Int) :
    convert_image_body lib p out fmt (some 0) h q =
      convert_image_body lib p out fmt none h q := by
  unfold convert_image_body
  rw [truthy_some_zero, truthy_none_eq, orEmpty_some_zero, orEmpty_none_eq]

/-- Replacing a zero height by an absent height leaves the try block
unchanged. -/
theorem convert_image_body_zero_height {Img : Type} (lib : WandLib Img) (p out : PyPath)
    (fmt : String) (w q : Option Int) :
    convert_image_body lib p out fmt w (some 0) q =
      convert_image_body lib p out fmt w none q := by
  unfold convert_image_body
  rw [truthy_some_zero, truthy_none_eq, orEmpty_some_zero, orEmpty_none_eq]

/-- With both dimensions absent no resize is requested, on any oracle. -/
theorem convert_image_body_none_resizes {Img : Type} (lib : WandLib Img) (p out : PyPath)
    (fmt : String) (q : Option Int) :
    (convert_image_body lib p out fmt none none q).resizes = [] := by
  unfold convert_image_body
  cases hO : lib.openImg (pathStr p) with
  | error e => simp [hO]
  | ok img0 => exact (convert_image_rest_cases lib out fmt q [] img0).2.1

theorem orEmpty_eq_dimShow (x : Option Int) (hx : ∀ n, x = some n → 0 < n) :
    orEmpty x = dimShow x := by
  cases x with
  | none => rfl
  | some n =>
    have hn := hx n rfl
    have hb : (n == 0) = false := by
      simp only [beq_eq_false_iff_ne, ne_eq]
      omega
    simp [orEmpty, dimShow, hb]

theorem truthy_or_of_supplied (w h : Option Int) (hw : ∀ n, w = some n → 0 < n)
    (hh : ∀ n, h = some n → 0 < n) (hne : ¬(w = none ∧ h = none)) :
    (truthy w || truthy h) = true := by
  cases w with
  | some n =>
    have hn := hw n rfl
    have ht : truthy (some n) = true := by
      simp only [truthy, Bool.not_eq_true', beq_eq_false_iff_ne, ne_eq]
      omega
    simp [ht]
  | none =>
    cases h with
    | none => exact absurd ⟨rfl, rfl⟩ hne
    | some m =>
      have hm := hh m rfl
      have ht : truthy (some m) = true := by
        simp only [truthy, Bool.not_eq_true', beq_eq_false_iff_ne, ne_eq]
        omega
      simp [truthy_none_eq, ht]

/-- C2, counterexample.  The claim says convert_image never raises to its
caller, for every input path and output format.  With the empty output format
the default-output computation of line 56 calls with_suffix with the bare
dot, which raises ValueError before the try block is entered, and the
exception escapes convert_image. -/
theorem C2_uncaught_exception_counterexample :
    convert_image okLib (PyPath.mk "d" "a.png") "" none none none none =
      Except.error "Invalid suffix ." := by rfl

/-- C2, amended.  Whenever the default-output computation performed before
the exception handler does not raise - always when an explicit output path is
supplied, and otherwise exactly when the dot-prefixed lowercased format is a
valid suffix and the input path has a nonempty name - convert_image returns
normally: every exception raised while opening, transforming, encoding or
writing is caught, its message is printed, and False is returned; on
completion without exception True is returned with nothing printed. -/
theorem C2_catches_library_errors {Img : Type} (lib : WandLib Img) (p : PyPath)
    (fmt : String) (outp : Option PyPath) (w h q : Option Int)
    (hdef : outp = none → suffixOk ("." ++ pyLower fmt) = true ∧ p.name ≠ "") :
    ∃ r, convert_image lib p fmt outp w h q = Except.ok r ∧
      ((r.success = true ∧ r.printed = []) ∨
       (r.success = false ∧ ∃ e, r.printed = ["Error: " ++ e])) := by
  cases outp with
  | some pp =>
    refine ⟨convert_image_body lib p pp fmt w h q, rfl, ?_⟩
    rcases (convert_image_body_cases lib p pp fmt w h q).2 with
      ⟨hs, hp, -⟩ | ⟨hs, ⟨e, hp⟩, -⟩
    · exact Or.inl ⟨hs, hp⟩
    · exact Or.inr ⟨hs, e, hp⟩
  | none =>
    obtain ⟨h1, h2⟩ := hdef rfl
    refine ⟨convert_image_body lib p (with_suffix p ("." ++ pyLower fmt)) fmt w h q,
      convert_image_default_ok lib p fmt w h q h1 h2, ?_⟩
    rcases (convert_image_body_cases lib p (with_suffix p ("." ++ pyLower fmt)) fmt w h q).2 with
      ⟨hs, hp, -⟩ | ⟨hs, ⟨e, hp⟩, -⟩
    · exact Or.inl ⟨hs, hp⟩
    · exact Or.inr ⟨hs, e, hp⟩

/-- Witness for C2: a concrete call on an oracle whose open fails returns
normally with False and one printed error message. -/
theorem C2_catches_library_errors_witness :
    ∃ r, convert_image badOpenLib (PyPath.mk "d" "a.png") "png" none none none none =
        Except.ok r ∧
      ((r.success = true ∧ r.printed = []) ∨
       (r.success = false ∧ ∃ e, r.printed = ["Error: " ++ e])) :=
  C2_catches_library_errors badOpenLib (PyPath.mk "d" "a.png") "png" none none none none
    (fun _ => ⟨by decide, by decide⟩)

/-- C5, counterexample.  The claim says the source file is never modified,
even when the output format equals the source extension and no explicit
output path is given.  Converting a.png to png derives the output path a.png
itself, and the save overwrites the source content. -/
theorem C5_source_overwrite_counterexample :
    (match convert_image okLib (PyPath.mk "imgs" "a.png") "png" none none none none with
     | Except.ok r =>
         runWrites (fun y => if y = PyPath.mk "imgs" "a.png" then some "original" else none)
           r.writes (PyPath.mk "imgs" "a.png")
     | Except.error _ => none) = some "converted" ∧
    (fun y => if y = PyPath.mk "imgs" "a.png" then some "original" else none)
      (PyPath.mk "imgs" "a.png") = some "original" := by
  exact ⟨rfl, rfl⟩

/-- C5, amended.  A convert_image call that returns normally writes at most
at its output path: the content at every other path is untouched, and no
path is ever deleted.  In particular the source file survives every call and
is unmodified whenever the output path differs from the input path; it is
overwritten exactly when the two coincide. -/
theorem C5_writes_only_output_path {Img : Type} (lib : WandLib Img) (p : PyPath)
    (fmt : String) (outp : Option PyPath) (w h q : Option Int) (r : ConvResult)
    (hok : convert_image lib p fmt outp w h q = Except.ok r) :
    (∀ (fs : PyPath → Option String) (x : PyPath), x ≠ r.outPath →
        runWrites fs r.writes x = fs x) ∧
    (∀ (fs : PyPath → Option String) (x : PyPath),
        runWrites fs r.writes x = none → fs x = none) := by
  obtain ⟨out, hr, ho⟩ := convert_image_ok_elim lib p fmt outp w h q r hok
  have hcases := (convert_image_body_cases lib p out fmt w h q).2
  rw [← hr] at hcases
  rcases hcases with ⟨-, -, ⟨c, hwr⟩⟩ | ⟨-, -, hwr⟩
  · constructor
    · intro fs x hx
      rw [ho] at hx
      rw [hwr, runWrites_single]
      simp [hx]
    · intro fs x hnone
      rw [hwr, runWrites_single] at hnone
      by_cases hxo : x = out
      · rw [if_pos hxo] at hnone
        exact absurd hnone (by simp)
      · rwa [if_neg hxo] at hnone
  · constructor
    · intro fs x _
      rw [hwr, runWrites_nil]
    · intro fs x hnone
      rwa [hwr, runWrites_nil] at hnone

/-- Witness for C5: a concrete successful conversion of pic.jpg to webp
leaves the content stored at pic.jpg unchanged. -/
theorem C5_writes_only_output_path_witness :
    runWrites (fun y => if y = PyPath.mk "s" "pic.jpg" then some "original" else none)
      (ConvResult.mk true (PyPath.mk "s" "pic.webp") [] []
        [(PyPath.mk "s" "pic.webp", "converted")]).writes
      (PyPath.mk "s" "pic.jpg") =
    (fun y => if y = PyPath.mk "s" "pic.jpg" then some "original" else none)
      (PyPath.mk "s" "pic.jpg") :=
  (C5_writes_only_output_path okLib (PyPath.mk "s" "pic.jpg") "webp" none none none none
      (ConvResult.mk true (PyPath.mk "s" "pic.webp") [] []
        [(PyPath.mk "s" "pic.webp", "converted")]) rfl).1
    (fun y => if y = PyPath.mk "s" "pic.jpg" then some "original" else none)
    (PyPath.mk "s" "pic.jpg") (by decide)

/-- C6.  When no explicit output path is given and convert_image returns
normally, the output path it used is the input path with its suffix replaced
by a dot followed by the lowercased output format. -/
theorem C6_default_output_path {Img : Type} (lib : WandLib Img) (p : PyPath)
    (fmt : String) (w h q : Option Int) (r : ConvResult)
    (hok : convert_image lib p fmt none w h q = Except.ok r) :
    r.outPath = PyPath.mk p.parent (withSuffixName p.name ("." ++ pyLower fmt)) := by
  unfold convert_image at hok
  cases hS : with_suffix_exc p ("." ++ pyLower fmt) with
  | error e =>
    rw [hS] at hok
    exact absurd hok (by simp)
  | ok o =>
    rw [hS] at hok
    have ho : with_suffix p ("." ++ pyLower fmt) = o := by
      unfold with_suffix_exc at hS
      split at hS
      · split at hS
        · exact absurd hS (by simp)
        · simpa using hS
      · exact absurd hS (by simp)
    have hr : convert_image_body lib p o fmt w h q = r := by
      simpa using hok
    rw [← hr, (convert_image_body_cases lib p o fmt w h q).1, ← ho]
    rfl

/-- Witness for C6: converting x.svg with target format PNG derives the
output path x.png, lowercased. -/
theorem C6_default_output_path_witness :
    (ConvResult.mk true (PyPath.mk "d" "x.png") [] []
      [(PyPath.mk "d" "x.png", "converted")]).outPath = PyPath.mk "d" "x.png" :=
  C6_default_output_path okLib (PyPath.mk "d" "x.svg") "PNG" none none none
    (ConvResult.mk true (PyPath.mk "d" "x.png") [] []
      [(PyPath.mk "d" "x.png", "converted")]) rfl

/-- C9.  On a call whose open succeeds and that returns normally, with every
supplied dimension positive: when at least one dimension is supplied exactly
one resize is requested, its geometry holding exactly the supplied
dimension(s) with the unset one left empty; when neither is supplied no
resize is requested. -/
theorem C9_resize_geometry {Img : Type} (lib : WandLib Img) (p : PyPath)
    (fmt : String) (outp : Option PyPath) (w h q : Option Int) (img0 : Img)
    (r : ConvResult)
    (hw : ∀ n, w = some n → 0 < n) (hh : ∀ n, h = some n → 0 < n)
    (hopen : lib.openImg (pathStr p) = Except.ok img0)
    (hok : convert_image lib p fmt outp w h q = Except.ok r) :
    (¬(w = none ∧ h = none) → r.resizes = [dimShow w ++ "x" ++ dimShow h]) ∧
    ((w = none ∧ h = none) → r.resizes = []) := by
  obtain ⟨out, hr, -⟩ := convert_image_ok_elim lib p fmt outp w h q r hok
  subst hr
  rw [convert_image_body_resizes lib p out fmt w h q img0 hopen]
  constructor
  · intro hne
    rw [truthy_or_of_supplied w h hw hh hne,
        orEmpty_eq_dimShow w hw, orEmpty_eq_dimShow h hh]
    simp
  · rintro ⟨hw0, hh0⟩
    subst hw0
    subst hh0
    simp [truthy_none_eq]

/-- Witness for C9: a concrete call with width 2 and no height requests the
single geometry 2x. -/
theorem C9_resize_geometry_witness :
    (ConvResult.mk true (PyPath.mk "d" "i.png") [] ["2x"]
      [(PyPath.mk "d" "i.png", "converted")]).resizes = ["2x"] :=
  (C9_resize_geometry okLib (PyPath.mk "d" "i.jpg") "png" none (some 2) none none ()
      (ConvResult.mk true (PyPath.mk "d" "i.png") [] ["2x"]
        [(PyPath.mk "d" "i.png", "converted")])
      (by intro n hn; simp at hn; omega)
      (by intro n hn; simp at hn)
      rfl rfl).1
    (by simp)

/-- C10.  A supplied width or height of 0 behaves exactly like an absent
dimension: the whole observable outcome of convert_image is unchanged when a
zero dimension is replaced by None; and with width 0 and no height (or
symmetrically) no resize is requested at all, since the check at line 61
uses truthiness rather than an is-None test. -/
theorem C10_zero_dimension_like_none {Img : Type} (lib : WandLib Img) (p : PyPath)
    (fmt : String) (outp : Option PyPath) (w h q : Option Int) (out : PyPath) :
    convert_image lib p fmt outp (some 0) h q = convert_image lib p fmt outp none h q ∧
    convert_image lib p fmt outp w (some 0) q = convert_image lib p fmt outp w none q ∧
    (convert_image_body lib p out fmt (some 0) none q).resizes = [] ∧
    (convert_image_body lib p out fmt none (some 0) q).resizes = [] := by
  refine ⟨?_, ?_, ?_, ?_⟩
  · cases outp with
    | some pp =>
      simp only [convert_image]
      rw [convert_image_body_zero_width]
    | none =>
      simp only [convert_image]
      cases hS : with_suffix_exc p ("." ++ pyLower fmt) with
      | error e => simp [hS]
      | ok o => simp [hS, convert_image_body_zero_width]
  · cases outp with
    | some pp =>
      simp only [convert_image]
      rw [convert_image_body_zero_height]
    | none =>
      simp only [convert_image]
      cases hS : with_suffix_exc p ("." ++ pyLower fmt) with
      | error e => simp [hS]
      | ok o => simp [hS, convert_image_body_zero_height]
  · rw [convert_image_body_zero_width]
    exact convert_image_body_none_resizes lib p out fmt q
  · rw [convert_image_body_zero_height]
    exact convert_image_body_none_resizes lib p out fmt q

theorem countP_add_countP_not {α : Type} (p : α → Bool) (l : List α) :
    l.countP p + l.countP (fun a => !(p a)) = l.length := by
  induction l with
  | nil => rfl
  | cons a t ih =>
    rw [List.countP_cons, List.countP_cons]
    cases hpa : p a <;> simp [hpa] <;> omega

theorem isEmpty_false_of_ne_nil {α : Type} (l : List α) (h : l ≠ []) :
    l.isEmpty = false := by
  cases l with
  | nil => exact absurd rfl h
  | cons a t => rfl

/-- On a valid folder the two checks pass. -/
theorem convert_all_images_valid {Img : Type} (lib : WandLib Img) (fs : DirFS)
    (folder input_format output_format : String) (w h q : Option Int)
    (hdir : fs.isDir folder = true) :
    convert_all_images lib fs folder input_format output_format w h q =
      convert_all_images_checked lib fs folder input_format output_format w h q := by
  unfold convert_all_images
  rw [pathExists_of_isDir fs folder hdir, hdir]
  rfl

/-- With an empty glob result the batch stops at the not-found report. -/
theorem convert_all_images_checked_empty {Img : Type} (lib : WandLib Img) (fs : DirFS)
    (folder input_format output_format : String) (w h q : Option Int)
    (hE : globFiles fs folder input_format = []) :
    convert_all_images_checked lib fs folder input_format output_format w h q =
      BatchResult.mk [] [] 0 0
        ["No " ++ pyUpper (normFmt input_format) ++ " files found in " ++ folder] false none := by
  unfold convert_all_images_checked
  rw [hE]
  rfl

/-- With a nonempty glob result the batch runs the loop and assembles the
outcome. -/
theorem convert_all_images_checked_nonempty {Img : Type} (lib : WandLib Img) (fs : DirFS)
    (folder input_format output_format : String) (w h q : Option Int)
    (hne : globFiles fs folder input_format ≠ []) :
    convert_all_images_checked lib fs folder input_format output_format w h q =
      convert_all_images_assemble folder input_format output_format w h q
        (globFiles fs folder input_format)
        (batchLoop lib (normFmt output_format) w h q (globFiles fs folder input_format)) := by
  unfold convert_all_images_checked
  rw [isEmpty_false_of_ne_nil _ hne]
  rfl

/-- With a valid normalised output format every loop-body call returns
normally: every globbed name ends with a dot and is nonempty, so the
with_suffix computation cannot raise. -/
theorem globFiles_conv_ok {Img : Type} (lib : WandLib Img) (fs : DirFS)
    (folder input_format output_format : String) (w h q : Option Int)
    (hfmt : suffixOk ("." ++ pyLower (normFmt output_format)) = true) :
    ∀ f ∈ globFiles fs folder input_format,
      ∃ b, convert_image lib f (normFmt output_format) none w h q = Except.ok b := by
  intro f hf
  unfold globFiles at hf
  obtain ⟨n, hn, rfl⟩ := List.mem_map.mp hf
  have hmatch : globMatch (normFmt input_format) n = true := (List.mem_filter.mp hn).2
  have hname : (PyPath.mk folder n).name ≠ "" := globMatch_ne_empty _ n hmatch
  exact ⟨_, convert_image_default_ok lib (PyPath.mk folder n) (normFmt output_format)
    w h q hfmt hname⟩

/-- C1, counterexample.  A folder with exactly two files matching star-dot-svg,
converted with the output format given as a bare dot: the dot is stripped at
line 101, with_suffix then raises on the empty suffix inside the first loop
iteration, so convert_image is called once, not twice, and the reported
counts sum to zero, not two. -/
theorem C1_count_counterexample :
    ((DirFS.mk [("imgs", ["a.svg", "b.svg"])] []).listDir "imgs").filter
        (fun n => globMatch (normFmt "svg") n) = ["a.svg", "b.svg"] ∧
    (convert_all_images okLib (DirFS.mk [("imgs", ["a.svg", "b.svg"])] [])
        "imgs" "svg" "." none none none).attempted.length = 1 ∧
    (convert_all_images okLib (DirFS.mk [("imgs", ["a.svg", "b.svg"])] [])
          "imgs" "svg" "." none none none).successful +
      (convert_all_images okLib (DirFS.mk [("imgs", ["a.svg", "b.svg"])] [])
          "imgs" "svg" "." none none none).failed = 0 := by
  refine ⟨rfl, rfl, rfl⟩

/-- C1, amended.  On an existing directory, and provided the normalised
output format yields a valid with_suffix argument (so that no exception
escapes a loop iteration), convert_all_images calls convert_image exactly
once per file matching the pattern, and the reported counts satisfy
successful + failed = N where N is the number of matching files. -/
theorem C1_conversion_count {Img : Type} (lib : WandLib Img) (fs : DirFS)
    (folder input_format output_format : String) (w h q : Option Int)
    (hdir : fs.isDir folder = true)
    (hfmt : suffixOk ("." ++ pyLower (normFmt output_format)) = true) :
    (convert_all_images lib fs folder input_format output_format w h q).attempted.length =
      ((fs.listDir folder).filter (fun n => globMatch (normFmt input_format) n)).length ∧
    (convert_all_images lib fs folder input_format output_format w h q).successful +
        (convert_all_images lib fs folder input_format output_format w h q).failed =
      ((fs.listDir folder).filter (fun n => globMatch (normFmt input_format) n)).length := by
  rw [convert_all_images_valid lib fs folder input_format output_format w h q hdir]
  have hlen : (globFiles fs folder input_format).length =
      ((fs.listDir folder).filter (fun n => globMatch (normFmt input_format) n)).length := by
    unfold globFiles
    exact List.length_map _ _
  by_cases hE : globFiles fs folder input_format = []
  · rw [convert_all_images_checked_empty lib fs folder input_format output_format w h q hE]
    rw [hE] at hlen
    simp at hlen
    simp [← hlen]
  · rw [convert_all_images_checked_nonempty lib fs folder input_format output_format w h q hE]
    have hL := batchLoop_spec lib (normFmt output_format) w h q
      (globFiles fs folder input_format)
      (globFiles_conv_ok lib fs folder input_format output_format w h q hfmt)
    unfold convert_all_images_assemble
    constructor
    · simp only [hL.1]
      exact hlen
    · simp only [hL.2.2.1, hL.2.2.2]
      rw [← hlen]
      exact countP_add_countP_not _ (globFiles fs folder input_format)

/-- Witness for C1: a concrete folder with two matching files and one
non-matching file reports counts summing to two. -/
theorem C1_conversion_count_witness :
    (convert_all_images okLib (DirFS.mk [("d", ["a.svg", "b.svg", "c.txt"])] [])
        "d" "svg" "png" none none none).attempted.length = 2 ∧
    (convert_all_images okLib (DirFS.mk [("d", ["a.svg", "b.svg", "c.txt"])] [])
          "d" "svg" "png" none none none).successful +
      (convert_all_images okLib (DirFS.mk [("d", ["a.svg", "b.svg", "c.txt"])] [])
          "d" "svg" "png" none none none).failed = 2 :=
  C1_conversion_count okLib (DirFS.mk [("d", ["a.svg", "b.svg", "c.txt"])] [])
    "d" "svg" "png" none none none (by decide) (by decide)

/-- A path lies in the glob result exactly when its name is an entry of the
folder whose name matches the pattern. -/
theorem mem_globFiles (fs : DirFS) (folder input_format name : String) :
    PyPath.mk folder name ∈ globFiles fs folder input_format ↔
      (name ∈ fs.listDir folder ∧ globMatch (normFmt input_format) name = true) := by
  unfold globFiles
  rw [List.mem_map]
  constructor
  · rintro ⟨n, hn, he⟩
    have hne : n = name := by
      have := congrArg PyPath.name he
      simpa using this
    subst hne
    exact ⟨(List.mem_filter.mp hn).1, (List.mem_filter.mp hn).2⟩
  · rintro ⟨h1, h2⟩
    exact ⟨name, List.mem_filter.mpr ⟨h1, h2⟩, rfl⟩

/-- C3, counterexample.  The claim says a failure of convert_image on one
file never prevents the later files from being attempted and the summary is
always printed.  With an output format holding a path separator the first
loop iteration raises inside convert_image (at the with_suffix call of line
56, outside its handler), the loop aborts, the second file is never
attempted and no summary is printed. -/
theorem C3_abort_counterexample :
    (convert_all_images okLib (DirFS.mk [("pics", ["a.png", "b.png"])] [])
        "pics" "png" "a/b" none none none).attempted = [PyPath.mk "pics" "a.png"] ∧
    (convert_all_images okLib (DirFS.mk [("pics", ["a.png", "b.png"])] [])
        "pics" "png" "a/b" none none none).summaryPrinted = false ∧
    (convert_all_images okLib (DirFS.mk [("pics", ["a.png", "b.png"])] [])
        "pics" "png" "a/b" none none none).uncaught = some "Invalid suffix .a/b" := by
  refine ⟨rfl, rfl, rfl⟩

/-- C3, amended.  On an existing directory, and provided the normalised
output format yields a valid with_suffix argument, every matching file is
attempted in enumeration order whatever the per-file outcomes: a False from
convert_image only increments the failed counter, the successful counter
counts exactly the True outcomes, nothing escapes the loop, and when any
file matched the final summary is printed. -/
theorem C3_failures_counted_not_propagated {Img : Type} (lib : WandLib Img) (fs : DirFS)
    (folder input_format output_format : String) (w h q : Option Int)
    (hdir : fs.isDir folder = true)
    (hfmt : suffixOk ("." ++ pyLower (normFmt output_format)) = true) :
    (convert_all_images lib fs folder input_format output_format w h q).attempted =
      globFiles fs folder input_format ∧
    (convert_all_images lib fs folder input_format output_format w h q).successful =
      (globFiles fs folder input_format).countP
        (fun f => convSucc lib (normFmt output_format) w h q f) ∧
    (convert_all_images lib fs folder input_format output_format w h q).failed =
      (globFiles fs folder input_format).countP
        (fun f => !(convSucc lib (normFmt output_format) w h q f)) ∧
    (convert_all_images lib fs folder input_format output_format w h q).uncaught = none ∧
    (globFiles fs folder input_format ≠ [] →
      (convert_all_images lib fs folder input_format output_format w h q).summaryPrinted
        = true) := by
  rw [convert_all_images_valid lib fs folder input_format output_format w h q hdir]
  by_cases hE : globFiles fs folder input_format = []
  · rw [convert_all_images_checked_empty lib fs folder input_format output_format w h q hE, hE]
    exact ⟨rfl, rfl, rfl, rfl, fun hc => absurd rfl hc⟩
  · rw [convert_all_images_checked_nonempty lib fs folder input_format output_format w h q hE]
    have hL := batchLoop_spec lib (normFmt output_format) w h q
      (globFiles fs folder input_format)
      (globFiles_conv_ok lib fs folder input_format output_format w h q hfmt)
    unfold convert_all_images_assemble
    refine ⟨hL.1, hL.2.2.1, hL.2.2.2, hL.2.1, fun _ => ?_⟩
    show (batchLoop lib (normFmt output_format) w h q
      (globFiles fs folder input_format)).uncaught.isNone = true
    rw [hL.2.1]
    rfl

/-- Witness for C3: on an oracle whose open always fails, both matching
files of a concrete folder are attempted, both failures are counted, and the
summary is still printed. -/
theorem C3_failures_counted_not_propagated_witness :
    (convert_all_images badOpenLib (DirFS.mk [("p2", ["a.png", "b.png"])] [])
        "p2" "png" "webp" none none none).attempted =
      [PyPath.mk "p2" "a.png", PyPath.mk "p2" "b.png"] ∧
    (convert_all_images badOpenLib (DirFS.mk [("p2", ["a.png", "b.png"])] [])
        "p2" "png" "webp" none none none).successful = 0 ∧
    (convert_all_images badOpenLib (DirFS.mk [("p2", ["a.png", "b.png"])] [])
        "p2" "png" "webp" none none none).failed = 2 ∧
    (convert_all_images badOpenLib (DirFS.mk [("p2", ["a.png", "b.png"])] [])
        "p2" "png" "webp" none none none).summaryPrinted = true := by
  have hc := C3_failures_counted_not_propagated badOpenLib
    (DirFS.mk [("p2", ["a.png", "b.png"])] []) "p2" "png" "webp" none none none
    (by decide) (by decide)
  exact ⟨hc.1, hc.2.1, hc.2.2.1, hc.2.2.2.2 (by decide)⟩

/-- C4, counterexample.  The claim says a file whose extension differs from
the input format only in letter case is selected.  pathlib glob matches case
sensitively on POSIX: a folder holding only a.SVG yields an empty glob for
the pattern star-dot-svg, and nothing is selected or attempted. -/
theorem C4_case_sensitivity_counterexample :
    (DirFS.mk [("imgs3", ["a.SVG"])] []).listDir "imgs3" = ["a.SVG"] ∧
    (convert_all_images okLib (DirFS.mk [("imgs3", ["a.SVG"])] [])
        "imgs3" "svg" "png" none none none).found = [] ∧
    (convert_all_images okLib (DirFS.mk [("imgs3", ["a.SVG"])] [])
        "imgs3" "svg" "png" none none none).attempted = [] := by
  refine ⟨rfl, rfl, rfl⟩

/-- C4, amended.  On an existing directory the selection is exactly the
entries directly inside the folder (non-recursive) whose stored name ends,
case sensitively, with a dot followed by the normalised (lowercased,
dot-stripped) input format; the input-format argument itself is treated
case-insensitively through that normalisation. -/
theorem C4_selection_characterisation {Img : Type} (lib : WandLib Img) (fs : DirFS)
    (folder input_format output_format : String) (w h q : Option Int)
    (hdir : fs.isDir folder = true) :
    (convert_all_images lib fs folder input_format output_format w h q).found =
      globFiles fs folder input_format ∧
    ∀ name, (PyPath.mk folder name ∈
        (convert_all_images lib fs folder input_format output_format w h q).found ↔
      (name ∈ fs.listDir folder ∧ globMatch (normFmt input_format) name = true)) := by
  rw [convert_all_images_valid lib fs folder input_format output_format w h q hdir]
  have hfound : (convert_all_images_checked lib fs folder input_format output_format
      w h q).found = globFiles fs folder input_format := by
    by_cases hE : globFiles fs folder input_format = []
    · rw [convert_all_images_checked_empty lib fs folder input_format output_format w h q hE, hE]
    · rw [convert_all_images_checked_nonempty lib fs folder input_format output_format w h q hE]
      rfl
  refine ⟨hfound, fun name => ?_⟩
  rw [hfound]
  exact mem_globFiles fs folder input_format name

/-- Witness for C4: with entries x.svg, y.SVG and z.png and the input format
given in upper case, exactly x.svg is selected. -/
theorem C4_selection_characterisation_witness :
    (convert_all_images okLib (DirFS.mk [("d4", ["x.svg", "y.SVG", "z.png"])] [])
        "d4" "SVG" "png" none none none).found = [PyPath.mk "d4" "x.svg"] :=
  (C4_selection_characterisation okLib (DirFS.mk [("d4", ["x.svg", "y.SVG", "z.png"])] [])
    "d4" "SVG" "png" none none none (by decide)).1

/-- C7.  For a folder path that does not exist or is not a directory,
convert_all_images reports a single error line, attempts no conversion,
counts nothing, prints no summary, and returns without raising. -/
theorem C7_invalid_folder {Img : Type} (lib : WandLib Img) (fs : DirFS)
    (folder input_format output_format : String) (w h q : Option Int)
    (hbad : fs.pathExists folder = false ∨ fs.isDir folder = false) :
    (convert_all_images lib fs folder input_format output_format w h q).attempted = [] ∧
    (convert_all_images lib fs folder input_format output_format w h q).successful = 0 ∧
    (convert_all_images lib fs folder input_format output_format w h q).failed = 0 ∧
    (convert_all_images lib fs folder input_format output_format w h q).uncaught = none ∧
    (convert_all_images lib fs folder input_format output_format w h q).summaryPrinted
      = false ∧
    ((convert_all_images lib fs folder input_format output_format w h q).printed =
        ["Error: Folder " ++ folder ++ " does not exist."] ∨
      (convert_all_images lib fs folder input_format output_format w h q).printed =
        ["Error: " ++ folder ++ " is not a directory."]) := by
  cases hpe : fs.pathExists folder with
  | false =>
    have hres : convert_all_images lib fs folder input_format output_format w h q =
        BatchResult.mk [] [] 0 0 ["Error: Folder " ++ folder ++ " does not exist."]
          false none := by
      unfold convert_all_images
      rw [hpe]
      rfl
    rw [hres]
    exact ⟨rfl, rfl, rfl, rfl, rfl, Or.inl rfl⟩
  | true =>
    have hdir : fs.isDir folder = false := by
      rcases hbad with hb | hb
      · rw [hpe] at hb
        exact absurd hb (by simp)
      · exact hb
    have hres : convert_all_images lib fs folder input_format output_format w h q =
        BatchResult.mk [] [] 0 0 ["Error: " ++ folder ++ " is not a directory."]
          false none := by
      unfold convert_all_images
      rw [hpe, hdir]
      rfl
    rw [hres]
    exact ⟨rfl, rfl, rfl, rfl, rfl, Or.inr rfl⟩

/-- Witness for C7: a folder absent from an empty file system yields the
error report and no attempt. -/
theorem C7_invalid_folder_witness :
    (convert_all_images okLib (DirFS.mk [] []) "nope" "svg" "png" none none none).attempted
      = [] ∧
    (convert_all_images okLib (DirFS.mk [] []) "nope" "svg" "png" none none none).successful
      = 0 ∧
    (convert_all_images okLib (DirFS.mk [] []) "nope" "svg" "png" none none none).failed
      = 0 ∧
    (convert_all_images okLib (DirFS.mk [] []) "nope" "svg" "png" none none none).uncaught
      = none ∧
    (convert_all_images okLib (DirFS.mk [] [])
        "nope" "svg" "png" none none none).summaryPrinted = false ∧
    ((convert_all_images okLib (DirFS.mk [] [])
          "nope" "svg" "png" none none none).printed =
        ["Error: Folder " ++ "nope" ++ " does not exist."] ∨
      (convert_all_images okLib (DirFS.mk [] [])
          "nope" "svg" "png" none none none).printed =
        ["Error: " ++ "nope" ++ " is not a directory."]) :=
  C7_invalid_folder okLib (DirFS.mk [] []) "nope" "svg" "png" none none none
    (Or.inl (by decide))

/-- C8.  On an existing directory with no entry matching the pattern,
convert_all_images prints exactly the not-found line, selects and attempts
nothing, and reports an empty summary with both counters zero. -/
theorem C8_no_matches {Img : Type} (lib : WandLib Img) (fs : DirFS)
    (folder input_format output_format : String) (w h q : Option Int)
    (hdir : fs.isDir folder = true)
    (hnone : (fs.listDir folder).filter (fun n => globMatch (normFmt input_format) n) = []) :
    (convert_all_images lib fs folder input_format output_format w h q).found = [] ∧
    (convert_all_images lib fs folder input_format output_format w h q).attempted = [] ∧
    (convert_all_images lib fs folder input_format output_format w h q).successful = 0 ∧
    (convert_all_images lib fs folder input_format output_format w h q).failed = 0 ∧
    (convert_all_images lib fs folder input_format output_format w h q).summaryPrinted
      = false ∧
    (convert_all_images lib fs folder input_format output_format w h q).uncaught = none ∧
    (convert_all_images lib fs folder input_format output_format w h q).printed =
      ["No " ++ pyUpper (normFmt input_format) ++ " files found in " ++ folder] := by
  have hE : globFiles fs folder input_format = [] := by
    unfold globFiles
    rw [hnone]
    rfl
  rw [convert_all_images_valid lib fs folder input_format output_format w h q hdir,
      convert_all_images_checked_empty lib fs folder input_format output_format w h q hE]
  exact ⟨rfl, rfl, rfl, rfl, rfl, rfl, rfl⟩

/-- Witness for C8: a folder holding only a.png, searched for svg files,
reports the not-found line and attempts nothing. -/
theorem C8_no_matches_witness :
    (convert_all_images okLib (DirFS.mk [("d8", ["a.png"])] [])
        "d8" "svg" "png" none none none).found = [] ∧
    (convert_all_images okLib (DirFS.mk [("d8", ["a.png"])] [])
        "d8" "svg" "png" none none none).attempted = [] ∧
    (convert_all_images okLib (DirFS.mk [("d8", ["a.png"])] [])
        "d8" "svg" "png" none none none).successful = 0 ∧
    (convert_all_images okLib (DirFS.mk [("d8", ["a.png"])] [])
        "d8" "svg" "png" none none none).failed = 0 ∧
    (convert_all_images okLib (DirFS.mk [("d8", ["a.png"])] [])
        "d8" "svg" "png" none none none).summaryPrinted = false ∧
    (convert_all_images okLib (DirFS.mk [("d8", ["a.png"])] [])
        "d8" "svg" "png" none none none).uncaught = none ∧
    (convert_all_images okLib (DirFS.mk [("d8", ["a.png"])] [])
        "d8" "svg" "png" none none none).printed = ["No SVG files found in d8"] :=
  C8_no_matches okLib (DirFS.mk [("d8", ["a.png"])] []) "d8" "svg" "png" none none none
    (by decide) (by decide)

end ConvertImages
